import Mathlib

/-!
Verification of the Mewati lookup/scoring repository.

The Python sources are shallowly embedded below:
* `normalize_sentence` embeds `mewati_model.normalize_sentence`
  (`s.replace("۔","").replace("؟","").replace("!","").strip()` followed by
  `re.sub(r"\s+", " ", s)`), working on `List Char`.
* `predict_beauty_score` embeds `beauty_model_01.predict_beauty_score`;
  the returned message string is abstracted by the `ScoreResult` type
  (the formatted message determines and is determined by the numeric score),
  and Python float arithmetic is modelled by exact rationals; `round(x, 2)`
  is modelled by half-to-even rounding at two decimals (`pyRound2`). This
  rational idealization of binary64 floats can differ from the program in
  the last rounded digit (for a cleaned text of length 200 with one vowel
  the program prints 0.03 while exact arithmetic rounds 0.025 to 0.02), so
  only properties insensitive to that difference are proved against it:
  which branch runs, and score values that are exactly representable.
* `dictGet` embeds Python `dict.get` on association lists with distinct keys.
* `MORPH_FEATURES`, `SPACY_FEATURES`, `LEIPZIG_ENTRIES` embed the literal
  tables of `mewati_model.py`.
* `homeMewati` embeds the `form_id == "mewati"` branch of `app.home`.
* `health` embeds `app.health`.
* `build_xbar_tree` embeds `mewati_model.build_xbar_tree`; the Boolean
  argument models whether `nltk.Tree` imported successfully.
-/

/-- Whitespace as recognised by Python `str.strip` and `re` `\s`
(the ASCII portion, which is all the repository's data uses). -/
def isPyWhite (c : Char) : Bool :=
  c = ' ' || c = '\t' || c = '\n' || c = '\r' || c = '\x0b' || c = '\x0c'

/-- The three punctuation characters removed by `normalize_sentence`:
Urdu full stop `۔`, Arabic question mark `؟`, and `!`. -/
def isStripPunct (c : Char) : Bool :=
  c = '۔' || c = '؟' || c = '!'

/-- The three `str.replace(p, "")` calls of `normalize_sentence`. -/
def removePunct (l : List Char) : List Char :=
  l.filter (fun c => !isStripPunct c)

/-- Removal of trailing whitespace (the right half of Python `str.strip`). -/
def dropTrailingWhite : List Char → List Char
  | [] => []
  | c :: rest =>
    match dropTrailingWhite rest with
    | [] => if isPyWhite c then [] else [c]
    | d :: t => c :: d :: t

/-- Python `str.strip()`: drop leading and trailing whitespace. -/
def pyStrip (l : List Char) : List Char :=
  dropTrailingWhite (l.dropWhile isPyWhite)

/-- Worker for `re.sub(r"\s+", " ", s)`: the flag records whether the
previous character belonged to a whitespace run already replaced. -/
def collapseAux : Bool → List Char → List Char
  | _, [] => []
  | b, c :: rest =>
    if isPyWhite c then
      if b then collapseAux true rest else ' ' :: collapseAux true rest
    else c :: collapseAux false rest

/-- `re.sub(r"\s+", " ", s)`: replace every maximal whitespace run by one space. -/
def collapseWhite (l : List Char) : List Char :=
  collapseAux false l

/-- Embedding of `mewati_model.normalize_sentence`: the code removes the
three punctuation marks, strips, and then collapses whitespace runs. -/
def normalize_sentence (l : List Char) : List Char :=
  if l = [] then [] else collapseWhite (pyStrip (removePunct l))

/-- The normalizer as worded by the specification (remove punctuation,
then replace every maximal whitespace run by one space, then strip);
stated separately so that agreement with the code can be proved. -/
def normalizeSpec (l : List Char) : List Char :=
  pyStrip (collapseWhite (removePunct l))

/-! ## Scoring heuristic (`beauty_model_01.predict_beauty_score`) -/

/-- `ch.lower() in "aeiou"` for the characters that can occur here. -/
def isVowel (c : Char) : Bool :=
  c.toLower = 'a' || c.toLower = 'e' || c.toLower = 'i' || c.toLower = 'o' || c.toLower = 'u'

/-- Abstraction of the two strings `predict_beauty_score` can return:
the fixed prompt `"Please enter some text."`, or
`f"Beauty Score for your text: {score}"` carrying the numeric score. -/
inductive ScoreResult where
  | prompt : ScoreResult
  | score (value : ℚ) : ScoreResult
deriving DecidableEq

/-- Round half to even to an integer, as Python `round` does. -/
def roundHalfEven (q : ℚ) : ℤ :=
  let f : ℤ := Int.fdiv q.num (q.den : ℤ)
  let frac : ℚ := q - (f : ℚ)
  if frac < 1/2 then f
  else if 1/2 < frac then f + 1
  else if f % 2 = 0 then f else f + 1

/-- Python `round(x, 2)` on the exact rational value. CPython instead
rounds the binary64 value of `x`, which can differ from the exact value in
the final digit (e.g. the exact 1/40 rounds here to 0.02, while the
nearest double to 0.025 lies above it and rounds to 0.03). -/
def pyRound2 (q : ℚ) : ℚ :=
  ((roundHalfEven (q * 100) : ℚ)) / 100

/-- Embedding of `beauty_model_01.predict_beauty_score`, with the float
arithmetic of the source idealized to exact rationals (see the note on
`pyRound2` for where the two can differ). -/
def predict_beauty_score (text : List Char) : ScoreResult :=
  if text = [] then ScoreResult.prompt
  else
    let cleaned := collapseWhite (pyStrip text)
    let length := cleaned.length
    let vowels := cleaned.countP isVowel
    let vowelFrac : ℚ := if length = 0 then 0 else (vowels : ℚ) / (length : ℚ)
    ScoreResult.score (pyRound2 (((length % 10 : ℕ) : ℚ) + vowelFrac * 5))

/-! ## Dictionary lookup -/

/-- Python `dict.get` on an association list (Python dict keys are unique;
the tables below are literal dicts with pairwise distinct keys). -/
def dictGet {α : Type} : List (List Char × α) → List Char → Option α
  | [], _ => none
  | (k, v) :: rest, key => if k = key then some v else dictGet rest key

/-- Embedding of `app.health`: body and HTTP status. -/
def health : String × Nat :=
  ("OK", 200)

/-! ## Fallback X-bar tree builder -/

/-- Trees as produced by `build_xbar_tree`: either an `nltk.Tree`-style
labelled node, a bare token leaf, or the `["TP", tokens]` list returned
when `nltk.Tree` is unavailable. -/
inductive XTree where
  | node (label : String) (children : List XTree) : XTree
  | leaf (tok : String) : XTree
  | flat (label : String) (toks : List String) : XTree

/-- Embedding of `mewati_model.build_xbar_tree`; `treeAvailable` models
whether the optional `nltk.Tree` import succeeded. -/
def build_xbar_tree (treeAvailable : Bool) (tokens : List String) : XTree :=
  let toks := if tokens = [] then ["—"] else tokens
  if treeAvailable = false then XTree.flat "TP" toks
  else
    match toks with
    | [] => XTree.flat "TP" []
    | t :: rest =>
      XTree.node "TP"
        [XTree.node "DP" [XTree.leaf t],
         XTree.node "T\x27"
           [XTree.node "T" [XTree.leaf "…"],
            XTree.node "VP" (if rest = [] then [XTree.leaf "…"] else rest.map XTree.leaf)]]

/-- Head-of-list whiteness test, for stating that collapsed suffixes never
begin with whitespace. -/
def headIsWhite : List Char → Bool
  | [] => false
  | c :: _ => isPyWhite c

/-! ## Static tables from `mewati_model.py` -/

/-- One morphology row: (surface word, standard form, morphological
structure label, phonemic change note, free-text explanation). -/
abbrev MorphRow := String × String × String × String × String

/-- One entry of the Leipzig-glossing table. -/
structure GlossEntry where
  urdu : String
  english : String
  words : List (String × String × String)
deriving DecidableEq

/-- Embedding of the literal dict `MORPH_FEATURES` (keys in source order). -/
def MORPH_FEATURES : List (List Char × List MorphRow) := [
  ("جب ہماری کلاس لگے کرے ای".data, [
    ("جب", "جب", "Subordinating Conjunction (Temporal)", "—", "Introduces time clauses."),
    ("ہماری کلاس", "ہماری کلاس", "[ہم + اری] = Possessive Pronoun + Noun", "اری → ہماری", "Dialectal form of \x27ہماری\x27."),
    ("لگے", "لگتی", "[لگ + ے + کرے] = Root Verb + Aspect + Aux", "لگے کرے → لگتی", "Compound with habitual aspect."),
    ("کرے ای", "تھی", "Copula/Aspect Marker (3rd fem past)", "ای → تھی", "Reduced form of \x27تھی\x27.")
  ]),
  ("کہ او کتنو پختو لکھاری اے".data, [
    ("کہ", "کہ", "Subordinating Conjunction", "—", "Same as Urdu."),
    ("او", "وہ", "3rd Person Pronoun", "او → وہ", "Dialectal variation."),
    ("کتنو پختو", "کتنا اچھا", "Interrogative + Adjective", "→ کتنا اچھا", "Equivalent phrase."),
    ("لکھاری", "لکھاری", "Agent noun", "—", "Same as Urdu."),
    ("اے", "ہے", "Copula", "اے → ہے", "Dialectal copula.")
  ]),
  ("اگر وے یا لباس اے پہری راکھاں".data, [
    ("اگر", "اگر", "Conditional Conjunction", "—", "Identical."),
    ("وے", "وہ", "Pronoun", "وے → وہ", "Mewati form."),
    ("یا", "یہ/اس", "Demonstrative", "→ یہ/اس", "Dialectal."),
    ("لباس اے", "لباس کو", "[Noun + Postposition]", "اے → کو", "Case marking difference."),
    ("پہری راکھاں", "پہنتے ہیں", "Verb compound", "→ پہنتے ہیں", "Aspectual equivalence.")
  ]),
  ("گیانی اور تعلیم کا ماہر لوگن کو ای ماننواے".data, [
    ("گیانی", "دانشور", "Noun", "—", "Borrowed word."),
    ("اور", "اور", "Conjunction", "—", "Same."),
    ("تعلیم کا ماہر", "تعلیم کے ماہر", "NP + Genitive", "کا → کے", "Case shift."),
    ("لوگن کو", "لوگوں کو", "Plural Oblique + Dative", "ن → وں", "Plural form."),
    ("ای", "یہ", "Demonstrative", "ای → یہ", "Variant."),
    ("ماننواے", "ماننا ہے", "Root + Inf + Aux", "→ ماننا ہے", "Fusion.")
  ]),
  ("میرے مارے بی اب تک ایک اچھنبو سوای اے".data, [
    ("میرے مارے", "میرے لیے", "Possessive + Postposition", "مارے → لیے", "Dialectal."),
    ("بی", "بھی", "Particle", "→ بھی", "Colloquial."),
    ("اب تک", "اب تک", "Temporal", "—", "Same."),
    ("ایک", "ایک", "Numeral", "—", "Identical."),
    ("اچھنبو سوای", "حیرانگی سی", "Adj + Postposition", "→ حیرانگی سی", "Lexical difference."),
    ("اے", "ہے", "Copula", "→ ہے", "Variant.")
  ]),
  ("دنیا آ جا ری ہی".data, [
    ("دنیا", "دنیا", "Noun", "—", "Same."),
    ("آ", "آ", "Aspectual Prefix", "—", "Identical."),
    ("جا ری", "جا رہی", "Verb Compound", "ری → رہی", "Phonemic reduction."),
    ("ہی", "ہے", "Copula", "ہی → ہے", "Variant.")
  ]),
  ("کا ہم ماضی اے زندہ رکھ سکاں".data, [
    ("کا", "کیا", "Question particle", "→ کیا", "Interrogative."),
    ("ہم", "ہم", "1PL Pronoun", "—", "Same."),
    ("ماضی اے", "ماضی کو", "Noun + Dative", "اے → کو", "Postpositional variant."),
    ("زندہ", "زندہ", "Adjective", "—", "Same."),
    ("رکھ", "رکھ", "Verb Root", "—", "Same."),
    ("سکاں", "سکتے ہیں", "Modal Auxiliary", "→ سکتے ہیں", "Plural auxiliary.")
  ]),
  ("کہا میو روس میں باولا ہو گا".data, [
    ("کہا", "کیا", "Interrogative", "→ کیا", "Variant."),
    ("میو", "میو", "Ethnonym", "—", "Same."),
    ("روس میں", "روس میں", "Noun + Locative", "—", "Same."),
    ("باولا", "پاگل", "Adjective", "→ پاگل", "Equivalent meaning."),
    ("ہو گا", "ہو گیا", "Auxiliary", "→ ہو گیا", "Tense/aspect difference.")
  ]),
  ("کہا پوچھو جائیگو قبر میں".data, [
    ("کہا", "کیا", "Interrogative", "→ کیا", "Variant."),
    ("پوچھو", "پوچھا", "Verb root", "→ پوچھا", "Dialectal form."),
    ("جائیگو", "جائے گا", "Passive Future", "→ جائے گا", "Future passive."),
    ("قبر میں", "قبر میں", "Noun + Locative", "—", "Same.")
  ]),
  ("اوکہن جا رو اے".data, [
    ("او", "وہ", "Pronoun", "او → وہ", "Variant."),
    ("کہن", "کہاں", "Interrogative Adverb", "کہن → کہاں", "Dialectal shift."),
    ("جا رو", "جا رہا", "Verb compound", "رو → رہا", "Progressive."),
    ("اے", "ہے", "Copula", "→ ہے", "Variant.")
  ]),
  ("تینے کہا کھایو".data, [
    ("تینے", "تم نے", "2SG + ERG", "→ تم نے", "Case marking."),
    ("کہا", "کیا", "Interrogative", "→ کیا", "Variant."),
    ("کھایو", "کھایا", "Verb (perfective)", "یو → یا", "Perfective change.")
  ]),
  ("ہم رات کب سویا ہا".data, [
    ("ہم", "ہم", "Pronoun", "—", "Same."),
    ("رات", "رات", "Noun", "—", "Same."),
    ("کب", "کب", "Interrogative", "—", "Same."),
    ("سویا ہا", "سوئے تھے", "Verb + Aux", "ہا → تھے", "Aux difference.")
  ]),
  ("ای جاڑان کی بات ای".data, [
    ("ای", "یہ", "Demonstrative", "→ یہ", "Variant."),
    ("جاڑان کی", "جاڑوں کی", "Noun + Genitive", "ان → وں", "Plural suffix."),
    ("بات", "بات", "Noun", "—", "Same."),
    ("ای", "ہے", "Copula", "→ ہے", "Variant.")
  ]),
  ("او اچھو آدمی ہو".data, [
    ("او", "وہ", "Pronoun", "او → وہ", "Dialectal."),
    ("اچھو", "اچھا", "Adjective", "او → اا", "Phonological."),
    ("آدمی", "آدمی", "Noun", "—", "Same."),
    ("ہو", "تھا", "Copula", "→ تھا", "Tense difference.")
  ]),
  ("بیربانی بڑی ملوک ہی".data, [
    ("بیربانی", "عورت", "Noun", "→ عورت", "Different lexeme."),
    ("بڑی", "بہت", "Adverb", "→ بہت", "Intensifier shift."),
    ("ملوک", "خوبصورت", "Adjective", "→ خوبصورت", "Semantic equivalent."),
    ("ہی", "تھی", "Copula", "→ تھی", "Past tense copula.")
  ]),
  ("بوڑھی اماں نے کدی کائی کی برائی نہ کری".data, [
    ("بوڑھی", "بوڑھی", "Adjective", "—", "Same."),
    ("اماں", "ماں", "Noun", "→ ماں", "Dialectal variant."),
    ("نے", "نے", "Ergative", "—", "Same."),
    ("کدی", "کبھی", "Adverb", "→ کبھی", "Variant."),
    ("کائی کی", "کسی کی", "Pronoun + Poss", "→ کسی کی", "Lexical."),
    ("برائی", "برائی", "Noun", "—", "Same."),
    ("نہ کری", "نہیں کی", "Neg + Verb", "→ نہیں کی", "Negation.")
  ]),
  ("میواتی زبان اپنی بقا کی جنگ لڑری اے".data, [
    ("میواتی زبان", "میواتی زبان", "Proper noun phrase", "—", "Same."),
    ("اپنی", "اپنی", "Possessive pronoun", "—", "Same."),
    ("بقا کی جنگ", "بقا کی جنگ", "NP + Genitive", "—", "Same."),
    ("لڑری", "لڑ رہی", "Verb Progressive", "ری → رہی", "Phonemic."),
    ("اے", "ہے", "Copula", "→ ہے", "Variant.")
  ]),
  ("بزرگن کی بہت سی سنت ٹوٹتی دکھائی دے ری ہاں".data, [
    ("بزرگن کی", "بزرگوں کی", "Plural + Gen", "ن → وں", "Plural ending."),
    ("بہت سی", "بہت سی", "Quantifier", "—", "Same."),
    ("سنت", "سنت", "Noun", "—", "Same."),
    ("ٹوٹتی", "ٹوٹتی", "Verb progressive", "—", "Same."),
    ("دکھائی دے", "دکھائی دے", "Light verb", "—", "Same."),
    ("ری ہاں", "رہی ہیں", "Progressive + Copula", "ری ہاں → رہی ہیں", "Dialectal plural.")
  ]),
  ("گول مٹول سلونٹن سو بھر و چہرو".data, [
    ("گول مٹول", "گول مٹول", "Adjective", "—", "Same."),
    ("سلونٹن", "جھریاں", "Noun", "→ جھریاں", "Lexical substitution."),
    ("سو", "سے", "Postposition", "→ سے", "Case marker."),
    ("بھر و", "بھرا", "Verb participle", "→ بھرا", "Aspect."),
    ("چہرو", "چہرہ", "Noun", "→ چہرہ", "Dialectal.")
  ]),
  ("کپڑا کی لوگڑی".data, [
    ("کپڑا", "کپڑا", "Noun", "—", "Same."),
    ("کی", "کا", "Genitive", "کی → کا", "Gender shift."),
    ("لوگڑی", "دوپٹہ", "Noun", "→ دوپٹہ", "Lexical.")
  ]),
  ("یا کا منہ سو".data, [
    ("یا", "یہ", "Demonstrative", "→ یہ", "Dialectal."),
    ("کا", "کا", "Genitive", "—", "Same."),
    ("منہ سو", "منہ سے", "Noun + Postposition", "سو → سے", "Postposition.")
  ])
]

/-- Embedding of the literal dict `SPACY_FEATURES` (keys in source order). -/
def SPACY_FEATURES : List (List Char × List (List String)) := [
  ("جب ہماری کلاس لگے کرے ای".data, [
    ["جب", "جب", "SCONJ", "mark", "Subordinating Conjunction (Temporal)", "کرے"],
    ["ہماری", "ہم", "PRON", "nmod:poss", "Possessive Pronoun", "کلاس"],
    ["کلاس", "کلاس", "NOUN", "nsubj", "Noun (subject of verb)", "کرے"],
    ["لگے", "لگنا", "VERB", "aux", "Root Verb + Aspect + Aux", "کرے"],
    ["کرے", "کرنا", "AUX", "root", "Habitual auxiliary verb", "—"],
    ["ای", "ہونا", "AUX", "cop", "Reduced Copula form of تھی", "—"]
  ]),
  ("کہ او کتنو پختو لکھاری اے".data, [
    ["کہ", "کہ", "SCONJ", "mark", "Subordinating Conjunction", "لکھاری"],
    ["او", "وہ", "PRON", "nsubj", "3rd Person Pronoun", "لکھاری"],
    ["کتنو", "کتنا", "ADJ", "amod", "Interrogative adjective", "پختو"],
    ["پختو", "اچھا", "ADJ", "amod", "Quality adjective", "لکھاری"],
    ["لکھاری", "لکھاری", "NOUN", "root", "Agent noun", "—"],
    ["اے", "ہے", "AUX", "cop", "Copula (3rd person singular)", "لکھاری"]
  ]),
  ("اگر وے یا لباس اے پہری راکھاں".data, [
    ["اگر", "اگر", "SCONJ", "mark", "Conditional conjunction", "راکھاں"],
    ["وے", "وہ", "PRON", "nsubj", "3rd Person Pronoun", "راکھاں"],
    ["یا", "یہ", "PRON", "det", "Demonstrative pronoun", "لباس"],
    ["لباس", "لباس", "NOUN", "obj", "Noun", "راکھاں"],
    ["اے", "کو", "ADP", "case", "Postposition marker", "لباس"],
    ["پہری", "پہننا", "VERB", "aux", "Root verb + aspect", "راکھاں"],
    ["راکھاں", "رکھنا", "AUX", "root", "Light verb + copula", "—"]
  ]),
  ("گیانی اور تعلیم کا ماہر لوگن کو ای ماننواے".data, [
    ["گیانی", "دانشور", "NOUN", "compound", "Noun (agent)", "ماہر"],
    ["اور", "اور", "CCONJ", "cc", "Coordinating conjunction", "گیانی"],
    ["تعلیم", "تعلیم", "NOUN", "compound", "Part of NP", "ماہر"],
    ["کا", "کا", "ADP", "case", "Genitive postposition", "تعلیم"],
    ["ماہر", "ماہر", "NOUN", "nsubj", "Expert noun", "ماننواے"],
    ["لوگن", "لوگ", "NOUN", "nmod", "Plural oblique", "ماننواے"],
    ["کو", "کا", "ADP", "case", "Postposition", "لوگن"],
    ["ای", "یہ", "PRON", "nsubj", "Demonstrative pronoun", "ماننواے"],
    ["ماننواے", "ماننا ہے", "VERB", "root", "Infinitive + Aux", "—"],
    ["اے", "ہے", "AUX", "cop", "Copula", "ماننواے"]
  ]),
  ("میرے مارے بی اب تک ایک اچھنبو سوای اے".data, [
    ["میرے", "میرا", "PRON", "nmod:poss", "Possessive pronoun", "مارے"],
    ["مارے", "لیے", "ADP", "case", "Postposition", "میرے"],
    ["بی", "بھی", "PART", "advmod", "Focus/emphasis particle", "اے"],
    ["اب تک", "اب تک", "ADV", "advmod", "Temporal phrase", "اے"],
    ["ایک", "ایک", "NUM", "nummod", "Cardinal numeral", "سوای"],
    ["اچھنبو", "عجیب", "ADJ", "amod", "Adjective", "سوای"],
    ["سوای", "سی", "ADP", "obl", "Postposition", "اے"],
    ["اے", "ہے", "AUX", "root", "Copula (present tense)", "—"]
  ]),
  ("دنیا آ جا ری ہی".data, [
    ["دنیا", "دنیا", "NOUN", "nsubj", "Noun (subject)", "جاری"],
    ["آ", "آنا", "PART", "aux", "Aspectual prefix", "جاری"],
    ["جاری", "جا رہی", "VERB", "root", "Verb + progressive", "—"],
    ["ہی", "ہے", "AUX", "cop", "Copula", "جاری"]
  ]),
  ("کا ہم ماضی اے زندہ رکھ سکاں".data, [
    ["کا", "کیا", "PART", "aux", "Interrogative particle", "سکاں"],
    ["ہم", "ہم", "PRON", "nsubj", "1PL pronoun", "سکاں"],
    ["ماضی", "ماضی", "NOUN", "obj", "Noun (indirect object)", "رکھ"],
    ["اے", "کو", "ADP", "case", "Postposition", "ماضی"],
    ["زندہ", "زندہ", "ADJ", "amod", "Adjective (state)", "رکھ"],
    ["زندہ رکھ", "زندہ رکھ", "VERB", "xcomp", "Compound verb", "سکاں"],
    ["رکھ", "رکھتے", "VERB", "compound", "Root verb", "سکاں"],
    ["سکاں", "سکتے ہیں", "AUX", "root", "Modal auxiliary", "—"]
  ]),
  ("کہا میو روس میں باولا ہو گا".data, [
    ["کہا", "کیا", "PART", "aux", "Interrogative particle", "باولا"],
    ["میو", "میو", "NOUN", "nsubj", "Ethnonym/proper noun", "باولا"],
    ["روس میں", "روس میں", "PROPN", "obl", "Proper noun locative", "باولا"],
    ["باولا", "پاگل", "ADJ", "amod", "Adjective", "میو"],
    ["ہو گا", "ہو گیا", "AUX", "root", "Auxiliary tense/aspect", "—"]
  ]),
  ("کہا پوچھو جائیگو قبر میں".data, [
    ["کہا", "کیا", "PART", "aux", "Interrogative particle", "پوچھو"],
    ["پوچھو", "پوچھا", "VERB", "root", "Imperative verb", "—"],
    ["جائیگو", "جائے گا", "VERB", "conj", "Future passive verb phrase", "پوچھو"],
    ["قبر میں", "قبر میں", "NOUN", "obl", "Locative noun", "جائیگو"]
  ]),
  ("اوکہن جا رو اے".data, [
    ["او", "وہ", "PRON", "nsubj", "3rd person pronoun", "جا رو"],
    ["کہن", "کہاں", "ADV", "advmod", "Interrogative locative", "جا رو"],
    ["جا رو", "جا رہا", "VERB", "root", "Verb compound: progressive", "—"],
    ["اے", "ہے", "AUX", "aux", "Copula", "جا رو"]
  ]),
  ("تینے کہا کھایو".data, [
    ["تینے", "تم نے", "PRON", "nsubj", "2SG pronoun + ergative", "کھایو"],
    ["کہا", "کیا", "INTJ", "obj", "Interrogative pronoun", "کھایو"],
    ["کھایو", "کھایا", "VERB", "root", "Perfective verb", "—"]
  ]),
  ("ہم رات کب سویا ہا".data, [
    ["ہم", "ہم", "PRON", "nsubj", "1PL pronoun", "سویا ہا"],
    ["رات", "رات", "NOUN", "nmod", "Temporal noun", "سویا ہا"],
    ["کب", "کب", "ADV", "advmod", "Interrogative adverb", "سویا ہا"],
    ["سویا ہا", "سوئے تھے", "VERB", "root", "Compound verb (past perfective)", "—"]
  ]),
  ("ای جاڑان کی بات ای".data, [
    ["ای", "یہ", "PRON", "nsubj", "Demonstrative pronoun", "بات"],
    ["جاڑان کی", "جاڑوں کی", "NOUN", "nmod", "Plural/Genitive noun", "بات"],
    ["بات", "بات", "NOUN", "root", "Common noun", "—"],
    ["ای", "ہے", "AUX", "cop", "Copula", "بات"]
  ]),
  ("او اچھو آدمی ہو".data, [
    ["او", "وہ", "PRON", "nsubj", "3rd person pronoun", "آدمی"],
    ["اچھو", "اچھا", "ADJ", "amod", "Adjective", "آدمی"],
    ["آدمی", "آدمی", "NOUN", "root", "Common noun", "—"],
    ["ہو", "تھا", "AUX", "cop", "Past copula", "آدمی"]
  ]),
  ("بیربانی بڑی ملوک ہی".data, [
    ["بیربانی", "عورت", "NOUN", "nsubj", "Noun (feminine)", "ملوک"],
    ["بڑی", "بہت", "ADV", "advmod", "Intensifier/adverb", "ملوک"],
    ["ملوک", "خوبصورت", "ADJ", "amod", "Adjective", "بیربانی"],
    ["ہی", "تھی", "AUX", "cop", "Past copula", "ملوک"]
  ]),
  ("بوڑھی اماں نے کدی کائی کی برائی نہ کری".data, [
    ["بوڑھی", "بوڑھی", "ADJ", "amod", "Adjective", "اماں"],
    ["اماں", "ماں", "NOUN", "nsubj", "Kinship noun", "کری"],
    ["نے", "نے", "ADP", "case", "Ergative marker", "اماں"],
    ["کدی", "کبھی", "ADV", "advmod", "Temporal adverb", "کری"],
    ["کائی کی", "کسی کی", "PRON", "nmod:poss", "Possessive pronoun", "برائی"],
    ["برائی", "برائی", "NOUN", "obj", "Abstract noun", "کری"],
    ["نہ کری", "نہیں کی", "VERB", "ROOT", "Neg + Verb", "—"]
  ]),
  ("میواتی زبان اپنی بقا کی جنگ لڑری اے".data, [
    ["میواتی زبان", "میواتی زبان", "PROPN", "compound", "Proper noun", "زبان"],
    ["اپنی", "اپنی", "PRON", "poss", "Reflexive possessive", "بقا"],
    ["بقا کی جنگ", "بقا کی جنگ", "NOUN", "nmod", "Abstract noun", "لڑری"],
    ["لڑری", "لڑ رہی", "VERB", "root", "Verb + progressive participle", "—"],
    ["اے", "ہے", "AUX", "cop", "Copula", "لڑری"]
  ]),
  ("بزرگن کی بہت سی سنت ٹوٹتی دکھائی دے ری ہاں".data, [
    ["بزرگن کی", "بزرگوں کی", "NOUN", "nmod", "Plural + Genitive", "سنت"],
    ["بہت سی", "بہت سی", "ADJ", "amod", "Quantifier", "سنت"],
    ["سنت", "سنت", "NOUN", "nsubj", "Noun", "ٹوٹتی"],
    ["ٹوٹتی", "ٹوٹتی", "VERB", "acl", "Verb progressive", "سنت"],
    ["دکھائی دے", "دکھائی دے", "VERB", "xcomp", "Light verb", "ٹوٹتی"],
    ["ری ہاں", "رہی ہیں", "AUX", "aux", "Progressive + Copula", "دکھائی دے"]
  ]),
  ("گول مٹول سلونٹن سو بھر و چہرو".data, [
    ["گول مٹول", "گول مٹول", "ADJ", "amod", "Adjective", "چہرو"],
    ["سلونٹن", "جھریاں", "NOUN", "amod", "Lexical substitution", "چہرو"],
    ["سو بھر", "بھرا", "VERB", "amod", "Perfective participle", "چہرو"],
    ["و", "ہوا", "AUX", "aux", "Aux/Copula", "سو بھر"],
    ["چہرو", "چہرہ", "NOUN", "root", "Head noun", "—"]
  ]),
  ("کپڑا کی لوگڑی".data, [
    ["کپڑا", "کپڑا", "NOUN", "nmod", "Noun", "لوگڑی"],
    ["کی", "کا", "ADP", "case", "Genitive postposition", "کپڑا"],
    ["لوگڑی", "دوپٹہ", "NOUN", "root", "Regional equivalent", "—"]
  ]),
  ("یا کا منہ سو".data, [
    ["یا", "یہ", "PRON", "nmod", "Demonstrative pronoun", "منہ"],
    ["کا", "کا", "ADP", "case", "Possessive postposition", "یا"],
    ["منہ سو", "منہ سے", "NOUN", "obl", "Noun + Postposition", "سو"]
  ])
]

/-- Embedding of the literal dict `LEIPZIG_ENTRIES` (keys in source order). -/
def LEIPZIG_ENTRIES : List (List Char × GlossEntry) := [
  ("جب ہماری کلاس لگے کرے ای۔".data,
   ⟨"جب ہماری کلاس لگتی تھی۔",
    "When our class used to take place.", [
    ("جب", "SCONJ", "When"),
    ("ہماری", "1SG.POSS", "Our"),
    ("کلاس", "N", "Class"),
    ("لگے", "V-root+ASP", "Root verb + aspect suffix"),
    ("کرے", "V-root+HAB", "Habitual auxiliary"),
    ("ای", "COP.PST.FEM", "Copula (past feminine)")
  ]⟩),
  ("کہ او کتنو پختو لکھار ی اے۔".data,
   ⟨"کہ وہ کتنا اچھا لکھاری ہے۔",
    "That he is such a good writer.", [
    ("کہ", "SCONJ", "That"),
    ("او", "PRON.3SG", "He/She"),
    ("کتنو پختو", "ADJ", "Good"),
    ("لکھاری", "N-AGENT-NOM", "Writer"),
    ("اے", "COP.PRES.3SG", "Is")
  ]⟩),
  ("اگر وےیا لباس اے پہری راکھاں۔".data,
   ⟨"اگر وہ لباس کو پہنتے ہیں۔",
    "If he wears those clothes.", [
    ("اگر", "SCONJ", "If"),
    ("وے", "PRON.3SG", "He/She"),
    ("یا", "DEM", "That"),
    ("لباس اے", "N+DAT", "Clothes (dative)"),
    ("پہری راکھاں", "V-root+ASP+HAB", "Wear (progressive+habitual)")
  ]⟩),
  ("گیانی اور تعلیم کا ماہر لوگن کو ای ماننواے اے۔".data,
   ⟨"گیانی اور تعلیم کے ماہر لوگوں کو یہ ماننا ہے۔",
    "The people accept scholars and education experts.", [
    ("گیانی", "N", "Scholar"),
    ("اور", "CONJ", "And"),
    ("تعلیم", "N", "Education"),
    ("کا", "GEN", "Of"),
    ("ماہر", "N", "Expert"),
    ("لوگن کو", "N-PL+DAT", "People (dative)"),
    ("ای", "DEM", "This"),
    ("ماننواے", "V-root+INF+AUX", "To accept"),
    ("اے", "COP.PRES.3SG", "Is")
  ]⟩),
  ("میرے مارے بی اب تک ایک اچھنبو سوای اے۔".data,
   ⟨"میرے لیے بھی اب تک ایک حیرانگی سی ہے۔",
    "Even for me until now, there is a strange feeling.", [
    ("میرے مارے", "1SG.POSS+POSTP", "For me"),
    ("بی", "FOC-PARTICLE", "Also/even"),
    ("اب تک", "ADV", "Until now"),
    ("ایک", "NUM", "One"),
    ("اچھنبو سوای", "ADJ+POSTP", "Strange like"),
    ("اے", "COP.PRES.3SG", "Is")
  ]⟩),
  ("دنیا آ جا ری ہی۔".data,
   ⟨"دنیا آ جا رہی ہے۔",
    "The world is coming and going.", [
    ("دنیا", "N", "World"),
    ("آ", "ASP-PREFIX", "Come"),
    ("جا", "V-ROOT", "Go"),
    ("ری", "PROG", "Progressive"),
    ("ہی", "COP.PRES.3SG", "Is")
  ]⟩),
  ("کا ہم ماضی اے زندہ رکھ سکاں؟".data,
   ⟨"کیا ہم ماضی کو زندہ رکھ سکتے ہیں؟",
    "Can we keep the past alive?", [
    ("کا", "Q-PART", "Question"),
    ("ہم", "PRON.1PL", "We"),
    ("ماضی اے", "N+DAT", "Past (dative)"),
    ("زندہ", "ADJ", "Alive"),
    ("رکھ", "V-ROOT", "Keep"),
    ("سکاں", "AUX-MOD.PL", "Can")
  ]⟩),
  ("کہا میو روس میں باولا ہو گا؟".data,
   ⟨"کیا میواتی روس میں پاگل ہوگئے؟",
    "Have the Miwatis gone crazy in Russia?", [
    ("کہا", "Q-PART", "Question"),
    ("میو", "N", "Mewati"),
    ("روس", "PROPN", "Russia"),
    ("میں", "LOC", "In"),
    ("باولا", "ADJ", "Crazy"),
    ("ہو گا", "AUX.FUT.PL", "Will be")
  ]⟩),
  ("کہا پوچھو جائیگو قبر میں؟".data,
   ⟨"کیا پوچھا جائے گا قبر میں؟",
    "Will it be asked in the grave?", [
    ("کہا", "Q-PART", "What"),
    ("پوچھو", "V-IMP", "Ask"),
    ("جائیگو", "V-FUT-PASS", "Will be asked"),
    ("قبر", "N", "Grave"),
    ("میں", "LOC", "In")
  ]⟩),
  ("او کہن جا رو اے؟".data,
   ⟨"وہ کہاں جا رہا ہے؟",
    "Where is he going?", [
    ("او", "PRON.3SG", "He"),
    ("کہن", "ADV-LOC", "Where"),
    ("جا رو", "V-ROOT+PROG", "Going"),
    ("اے", "COP.PRES.3SG", "Is")
  ]⟩),
  ("تینے کہا کھایو؟".data,
   ⟨"تم نے کیا کھایا؟",
    "What did you eat?", [
    ("تینے", "PRON.2SG+ERG", "You (ergative)"),
    ("کہا", "Q-PART", "What"),
    ("کھایو", "V-PFV", "Ate")
  ]⟩),
  ("ہم رات کب سویا ہا؟".data,
   ⟨"ہم رات کب سوئے تھے؟",
    "When did we sleep at night?", [
    ("ہم", "PRON.1PL", "We"),
    ("رات", "N", "Night"),
    ("کب", "ADV", "When"),
    ("سویا ہا", "V-PFV+AUX", "Slept (past)")
  ]⟩),
  ("ای جاڑان کی بات ای۔".data,
   ⟨"یہ جاڑوں کی بات ہے۔",
    "This is a matter of winters.", [
    ("ای", "DEM", "This"),
    ("جاڑان کی", "N-GEN", "Of winters"),
    ("بات", "N", "Matter"),
    ("ای", "COP.PRES", "Is")
  ]⟩),
  ("او اچھو آدمی ہو۔".data,
   ⟨"وہ اچھا آدمی تھا۔",
    "He was a good man.", [
    ("او", "PRON.3SG", "He"),
    ("اچھو", "ADJ", "Good"),
    ("آدمی", "N", "Man"),
    ("ہو", "COP.PST.MASC", "Was")
  ]⟩),
  ("بیربانی بڑی ملوک ہی۔".data,
   ⟨"عورت بہت خوبصورت تھی۔",
    "The woman was very beautiful.", [
    ("بیربانی", "N", "Woman"),
    ("بڑی", "ADV", "Very"),
    ("ملوک", "ADJ", "Beautiful"),
    ("ہی", "COP.PST.FEM", "Was (fem.)")
  ]⟩),
  ("بوڑھی اماں نے کدی کائی کی برائی نہ کری۔".data,
   ⟨"بوڑھی اماں نے کبھی کسی کی برائی نہیں کی۔",
    "The old mother never did anyone any harm.", [
    ("بوڑھی", "ADJ-FEM", "Old (fem.)"),
    ("اماں", "N", "Mother"),
    ("نے", "ERG", "Ergative"),
    ("کدی", "ADV", "Ever"),
    ("کائی کی", "PRON-POSS", "Someone\u2019s"),
    ("برائی", "N", "Evil"),
    ("نہ", "NEG", "Not"),
    ("کری", "V-PST.FEM", "Did (fem.)")
  ]⟩),
  ("میواتی زبان اپنی بقا کی جنگ لڑری اے۔".data,
   ⟨"میواتی زبان اپنی بقا کی جنگ لڑ رہی ہے۔",
    "The Mewati language is fighting for its survival.", [
    ("میواتی", "N-PROPN", "Mewati"),
    ("زبان", "N", "Language"),
    ("اپنی", "3SG.POSS", "Its"),
    ("بقا", "N", "Survival"),
    ("کی", "GEN", "Of"),
    ("جنگ", "N", "War"),
    ("لڑری", "V-root+PROG", "Fighting"),
    ("اے", "COP.PRES", "Is")
  ]⟩),
  ("بزرگن کی بہت سی سنت ٹوٹتی دکھائی دے ری ہاں۔".data,
   ⟨"بزرگوں کی بہت سی سنت بکھرتی دکھائی دے رہی ہیں۔",
    "Many traditions of the elders appear to be breaking.", [
    ("بزرگن کی", "N-PL-GEN", "Of elders"),
    ("بہت سی", "ADV+CLF", "Many"),
    ("سنت", "N-PL", "Traditions"),
    ("ٹوٹتی", "V-PROG-FEM", "Breaking"),
    ("دکھائی دے", "V-light", "Appear"),
    ("ری", "AUX-PROG-FEM", "Prog. fem."),
    ("ہاں", "COP.PRES.PL", "Are")
  ]⟩),
  ("گول مٹول سلونٹن سو بھر و چہرو۔".data,
   ⟨"گول مٹول جھریوں سے بھرا چہرہ۔",
    "A round face full of wrinkles.", [
    ("گول مٹول", "ADJ", "Round"),
    ("سلونٹن", "N-PL", "Wrinkles"),
    ("سو", "POSTP", "From"),
    ("بھر و", "V-PST", "Filled"),
    ("چہرو", "N", "Face")
  ]⟩),
  ("کپڑا کی لوگڑی۔".data,
   ⟨"کپڑے کا دوپٹہ۔",
    "Scarf made of cloth.", [
    ("کپڑا", "N", "Cloth"),
    ("کی", "GEN", "Of"),
    ("لوگڑی", "N", "Scarf/Dupatta")
  ]⟩),
  ("یا کا منہ سو۔".data,
   ⟨"اس کے منہ سے۔",
    "From his/her mouth.", [
    ("یا", "DEM", "This/That"),
    ("کا", "GEN", "Of"),
    ("منہ سو", "N+POSTP", "Mouth+from")
  ]⟩)
]

/-! ## The `form_id == "mewati"` branch of `app.home` -/

/-- Error values surfaced by `app.home` for the mewati form:
`notFound s` models `f"No morphological features found for: {s}"`,
`pleaseEnter` models `"Please enter a sentence."`. -/
inductive MewatiError where
  | notFound (sentence : List Char) : MewatiError
  | pleaseEnter : MewatiError
deriving DecidableEq

/-- The template-visible outcome of `app.home` for the mewati form. -/
structure MewatiView where
  rows : Option (List MorphRow)
  error : Option MewatiError
deriving DecidableEq

/-- Embedding of the `form_id == "mewati"` branch of `app.home`: the raw
form field is stripped, normalized, looked up in `MORPH_FEATURES`; a falsy
result (`None` or an empty row list) yields a not-found error carrying the
normalized sentence, an empty normalized sentence yields the prompt. -/
def homeMewati (raw : List Char) : MewatiView :=
  let mewati_input := pyStrip raw
  let normalized := normalize_sentence mewati_input
  if normalized = [] then { rows := none, error := some MewatiError.pleaseEnter }
  else
    match dictGet MORPH_FEATURES normalized with
    | none => { rows := none, error := some (MewatiError.notFound normalized) }
    | some rs =>
      if rs = [] then { rows := some rs, error := some (MewatiError.notFound normalized) }
      else { rows := some rs, error := none }

/-! ## Helper lemmas about the normalizer -/

theorem collapseAux_true_eq (l : List Char) :
    collapseAux true l = collapseAux false (l.dropWhile isPyWhite) := by
  induction l with
  | nil => rfl
  | cons c rest ih =>
    by_cases h : isPyWhite c = true
    · simp [collapseAux, h, List.dropWhile, ih]
    · simp [collapseAux, h, List.dropWhile]

theorem headIsWhite_collapseAux_true (l : List Char) :
    headIsWhite (collapseAux true l) = false := by
  induction l with
  | nil => rfl
  | cons c rest ih =>
    by_cases h : isPyWhite c = true
    · simpa [collapseAux, h] using ih
    · simp [collapseAux, h, headIsWhite]

theorem dropWhile_eq_self_of_headNotWhite (l : List Char) (h : headIsWhite l = false) :
    l.dropWhile isPyWhite = l := by
  cases l with
  | nil => rfl
  | cons c rest =>
    simp [headIsWhite] at h
    simp [List.dropWhile, h]

theorem dropWhile_collapseAux (l : List Char) :
    (collapseAux false l).dropWhile isPyWhite = collapseAux false (l.dropWhile isPyWhite) := by
  cases l with
  | nil => rfl
  | cons c rest =>
    by_cases h : isPyWhite c = true
    · have h1 : collapseAux false (c :: rest) = ' ' :: collapseAux true rest := by
        simp [collapseAux, h]
      rw [h1]
      have h2 : (' ' :: collapseAux true rest).dropWhile isPyWhite
          = (collapseAux true rest).dropWhile isPyWhite := by
        simp [List.dropWhile, isPyWhite]
      rw [h2, dropWhile_eq_self_of_headNotWhite _ (headIsWhite_collapseAux_true rest)]
      rw [collapseAux_true_eq]
      simp [List.dropWhile, h]
    · simp [collapseAux, h, List.dropWhile]

theorem collapseAux_true_eq_nil_iff (l : List Char) :
    collapseAux true l = [] ↔ ∀ c ∈ l, isPyWhite c = true := by
  induction l with
  | nil => simp [collapseAux]
  | cons c rest ih =>
    by_cases h : isPyWhite c = true
    · simp [collapseAux, h, ih]
    · simp [collapseAux, h]

theorem dropTrailingWhite_all_or_nonwhite (l : List Char) :
    dropTrailingWhite l = [] ∨ ∃ c ∈ dropTrailingWhite l, isPyWhite c = false := by
  induction l with
  | nil => exact Or.inl rfl
  | cons c rest ih =>
    cases hr : dropTrailingWhite rest with
    | nil =>
      by_cases h : isPyWhite c = true
      · left; simp [dropTrailingWhite, hr, h]
      · right
        refine ⟨c, ?_, by simpa using h⟩
        simp [dropTrailingWhite, hr, h]
    | cons d t =>
      rcases ih with h0 | ⟨e, he, hew⟩
      · simp [hr] at h0
      · right
        refine ⟨e, ?_, hew⟩
        simp [dropTrailingWhite, hr]
        right
        simpa [hr] using he

theorem collapseAux_false_ne_nil (c : Char) (t : List Char) :
    collapseAux false (c :: t) ≠ [] := by
  by_cases h : isPyWhite c = true <;> simp [collapseAux, h]

theorem dropTrailingWhite_collapseAux (l : List Char) :
    ∀ b, dropTrailingWhite (collapseAux b l) = collapseAux b (dropTrailingWhite l) := by
  induction l with
  | nil => intro b; rfl
  | cons c rest ih =>
    intro b
    by_cases hw : isPyWhite c = true
    · cases b with
      | true =>
        have h1 : collapseAux true (c :: rest) = collapseAux true rest := by
          simp [collapseAux, hw]
        rw [h1, ih true]
        cases hr : dropTrailingWhite rest with
        | nil =>
          have l2 : dropTrailingWhite (c :: rest) = [] := by
            simp [dropTrailingWhite, hr, hw]
          rw [l2]
        | cons d t =>
          have l2 : dropTrailingWhite (c :: rest) = c :: d :: t := by
            simp [dropTrailingWhite, hr]
          rw [l2]
          simp [collapseAux, hw]
      | false =>
        have h1 : collapseAux false (c :: rest) = ' ' :: collapseAux true rest := by
          simp [collapseAux, hw]
        rw [h1]
        cases hc : collapseAux true (dropTrailingWhite rest) with
        | nil =>
          have hin : dropTrailingWhite (collapseAux true rest) = [] := by
            rw [ih true, hc]
          have l1 : dropTrailingWhite (' ' :: collapseAux true rest) = [] := by
            simp [dropTrailingWhite, hin, isPyWhite]
          cases hr : dropTrailingWhite rest with
          | nil =>
            have l2 : dropTrailingWhite (c :: rest) = [] := by
              simp [dropTrailingWhite, hr, hw]
            rw [l1, l2]
            rfl
          | cons d t =>
            exfalso
            have hall := (collapseAux_true_eq_nil_iff (dropTrailingWhite rest)).mp hc
            rcases dropTrailingWhite_all_or_nonwhite rest with h0 | ⟨e, he, hew⟩
            · rw [h0] at hr; exact List.noConfusion hr
            · rw [hall e he] at hew; cases hew
        | cons e s =>
          have hin : dropTrailingWhite (collapseAux true rest) = e :: s := by
            rw [ih true, hc]
          cases hr2 : dropTrailingWhite rest with
          | nil =>
            exfalso
            rw [hr2] at hc
            simp [collapseAux] at hc
          | cons d t =>
            have l1 : dropTrailingWhite (' ' :: collapseAux true rest) = ' ' :: e :: s := by
              simp [dropTrailingWhite, hin]
            have l2 : dropTrailingWhite (c :: rest) = c :: d :: t := by
              simp [dropTrailingWhite, hr2]
            rw [l1, l2]
            have l3 : collapseAux false (c :: d :: t) = ' ' :: collapseAux true (d :: t) := by
              simp [collapseAux, hw]
            rw [l3, ← hr2, hc]
    · have h1 : ∀ b', collapseAux b' (c :: rest) = c :: collapseAux false rest := by
        intro b'; cases b' <;> simp [collapseAux, hw]
      rw [h1 b]
      cases hr : dropTrailingWhite rest with
      | nil =>
        have hin : dropTrailingWhite (collapseAux false rest) = [] := by
          rw [ih false, hr]; rfl
        have l1 : dropTrailingWhite (c :: collapseAux false rest) = [c] := by
          simp [dropTrailingWhite, hin, hw]
        have l2 : dropTrailingWhite (c :: rest) = [c] := by
          simp [dropTrailingWhite, hr, hw]
        rw [l1, l2]
        cases b <;> simp [collapseAux, hw]
      | cons d t =>
        have hin : dropTrailingWhite (collapseAux false rest) = collapseAux false (d :: t) := by
          rw [ih false, hr]
        cases hcc : collapseAux false (d :: t) with
        | nil => exact absurd hcc (collapseAux_false_ne_nil d t)
        | cons e s =>
          rw [hcc] at hin
          have l1 : dropTrailingWhite (c :: collapseAux false rest) = c :: e :: s := by
            simp [dropTrailingWhite, hin]
          have l2 : dropTrailingWhite (c :: rest) = c :: d :: t := by
            simp [dropTrailingWhite, hr]
          rw [l1, l2]
          have l3 : collapseAux b (c :: d :: t) = c :: collapseAux false (d :: t) := by
            cases b <;> simp [collapseAux, hw]
          rw [l3, hcc]

theorem dropTrailingWhite_cons (c : Char) (rest : List Char) :
    dropTrailingWhite (c :: rest) =
      match dropTrailingWhite rest with
      | [] => if isPyWhite c then [] else [c]
      | d :: t => c :: d :: t := rfl

theorem collapseAux_idem (l : List Char) :
    ∀ b, collapseAux b (collapseAux b l) = collapseAux b l := by
  induction l with
  | nil => intro b; rfl
  | cons c rest ih =>
    intro b
    by_cases hw : isPyWhite c = true
    · cases b with
      | true =>
        have h1 : collapseAux true (c :: rest) = collapseAux true rest := by
          simp [collapseAux, hw]
        rw [h1, ih true]
      | false =>
        have h1 : collapseAux false (c :: rest) = ' ' :: collapseAux true rest := by
          simp [collapseAux, hw]
        rw [h1]
        have h2 : collapseAux false (' ' :: collapseAux true rest)
            = ' ' :: collapseAux true (collapseAux true rest) := by
          simp [collapseAux, isPyWhite]
        rw [h2, ih true]
    · have h1 : collapseAux b (c :: rest) = c :: collapseAux false rest := by
        cases b <;> simp [collapseAux, hw]
      rw [h1]
      have h2 : collapseAux b (c :: collapseAux false rest)
          = c :: collapseAux false (collapseAux false rest) := by
        cases b <;> simp [collapseAux, hw]
      rw [h2, ih false]

theorem dropTrailingWhite_idem (l : List Char) :
    dropTrailingWhite (dropTrailingWhite l) = dropTrailingWhite l := by
  induction l with
  | nil => rfl
  | cons c rest ih =>
    cases hr : dropTrailingWhite rest with
    | nil =>
      by_cases hw : isPyWhite c = true
      · simp [dropTrailingWhite, hr, hw]
      · have h1 : dropTrailingWhite (c :: rest) = [c] := by
          simp [dropTrailingWhite, hr, hw]
        rw [h1]
        simp [dropTrailingWhite, hw]
    | cons d t =>
      have h1 : dropTrailingWhite (c :: rest) = c :: d :: t := by
        simp [dropTrailingWhite, hr]
      rw [h1]
      have h2 : dropTrailingWhite (d :: t) = d :: t := by
        rw [← hr, ih, hr]
      rw [dropTrailingWhite_cons, h2]

theorem headIsWhite_dropTrailingWhite (l : List Char) (h : headIsWhite l = false) :
    headIsWhite (dropTrailingWhite l) = false := by
  cases l with
  | nil => rfl
  | cons c rest =>
    simp [headIsWhite] at h
    cases hr : dropTrailingWhite rest with
    | nil => simp [dropTrailingWhite, hr, h, headIsWhite]
    | cons d t => simp [dropTrailingWhite, hr, headIsWhite, h]

theorem headIsWhite_dropWhile (l : List Char) :
    headIsWhite (l.dropWhile isPyWhite) = false := by
  induction l with
  | nil => rfl
  | cons c rest ih =>
    by_cases h : isPyWhite c = true
    · simpa [List.dropWhile, h] using ih
    · simp [List.dropWhile, h, headIsWhite]

theorem pyStrip_idem (l : List Char) : pyStrip (pyStrip l) = pyStrip l := by
  show pyStrip (dropTrailingWhite (l.dropWhile isPyWhite)) = pyStrip l
  unfold pyStrip
  rw [dropWhile_eq_self_of_headNotWhite _
    (headIsWhite_dropTrailingWhite _ (headIsWhite_dropWhile l)), dropTrailingWhite_idem]

theorem collapse_pyStrip_comm (l : List Char) :
    collapseWhite (pyStrip l) = pyStrip (collapseWhite l) := by
  unfold pyStrip collapseWhite
  rw [dropWhile_collapseAux, dropTrailingWhite_collapseAux]

theorem mem_collapseAux {c : Char} (l : List Char) :
    ∀ b, c ∈ collapseAux b l → c = ' ' ∨ c ∈ l := by
  induction l with
  | nil => intro b h; simp [collapseAux] at h
  | cons d rest ih =>
    intro b h
    by_cases hw : isPyWhite d = true
    · cases b with
      | true =>
        rw [show collapseAux true (d :: rest) = collapseAux true rest by
          simp [collapseAux, hw]] at h
        rcases ih true h with h1 | h1
        · exact Or.inl h1
        · exact Or.inr (List.mem_cons_of_mem d h1)
      | false =>
        rw [show collapseAux false (d :: rest) = ' ' :: collapseAux true rest by
          simp [collapseAux, hw]] at h
        rcases List.mem_cons.mp h with h1 | h1
        · exact Or.inl h1
        · rcases ih true h1 with h2 | h2
          · exact Or.inl h2
          · exact Or.inr (List.mem_cons_of_mem d h2)
    · rw [show collapseAux b (d :: rest) = d :: collapseAux false rest by
        cases b <;> simp [collapseAux, hw]] at h
      rcases List.mem_cons.mp h with h1 | h1
      · exact Or.inr (h1 ▸ List.mem_cons_self d rest)
      · rcases ih false h1 with h2 | h2
        · exact Or.inl h2
        · exact Or.inr (List.mem_cons_of_mem d h2)

theorem mem_dropTrailingWhite {c : Char} (l : List Char) (h : c ∈ dropTrailingWhite l) :
    c ∈ l := by
  induction l with
  | nil => simp [dropTrailingWhite] at h
  | cons d rest ih =>
    cases hr : dropTrailingWhite rest with
    | nil =>
      rw [hr] at ih
      by_cases hw : isPyWhite d = true
      · simp [dropTrailingWhite, hr, hw] at h
      · simp [dropTrailingWhite, hr, hw] at h
        exact h ▸ List.mem_cons_self d rest
    | cons e t =>
      simp [dropTrailingWhite, hr] at h
      rcases h with h1 | h1 | h1
      · exact h1 ▸ List.mem_cons_self d rest
      · exact List.mem_cons_of_mem d (ih (by simp [hr, h1]))
      · exact List.mem_cons_of_mem d (ih (by simp [hr, h1]))

theorem mem_pyStrip {c : Char} (l : List Char) (h : c ∈ pyStrip l) : c ∈ l := by
  have h1 := mem_dropTrailingWhite _ h
  exact List.dropWhile_sublist (p := isPyWhite) (l := l) |>.mem h1

/-- `normalize_sentence` unconditionally equals its non-empty branch. -/
theorem normalize_sentence_eq (l : List Char) :
    normalize_sentence l = collapseWhite (pyStrip (removePunct l)) := by
  unfold normalize_sentence
  by_cases h : l = []
  · subst h; rfl
  · simp [h]

theorem normalize_no_punct (l : List Char) :
    ∀ c ∈ normalize_sentence l, isStripPunct c = false := by
  intro c hc
  rw [normalize_sentence_eq] at hc
  rcases mem_collapseAux _ false hc with h1 | h1
  · subst h1; rfl
  · have h2 := mem_pyStrip _ h1
    have h3 := List.of_mem_filter h2
    simpa using h3

theorem removePunct_normalize (l : List Char) :
    removePunct (normalize_sentence l) = normalize_sentence l := by
  unfold removePunct
  rw [List.filter_eq_self]
  intro a ha
  simp [normalize_no_punct l a ha]

theorem collapseWhite_idem (l : List Char) :
    collapseWhite (collapseWhite l) = collapseWhite l :=
  collapseAux_idem l false

/-! ## Helper lemmas about dictionary lookup -/

theorem dictGet_eq_some_of_mem {α : Type} (t : List (List Char × α)) (s : List Char) (v : α)
    (hnd : (t.map Prod.fst).Nodup) (hmem : (s, v) ∈ t) : dictGet t s = some v := by
  induction t with
  | nil => cases hmem
  | cons p rest ih =>
    obtain ⟨k, w⟩ := p
    simp only [List.map_cons, List.nodup_cons] at hnd
    obtain ⟨hknot, hnd'⟩ := hnd
    rcases List.mem_cons.mp hmem with heq | hrest
    · cases heq
      simp [dictGet]
    · have hks : ¬(k = s) := by
        intro hk
        subst hk
        exact hknot (List.mem_map.mpr ⟨(k, v), hrest, rfl⟩)
      simp only [dictGet, if_neg hks]
      exact ih hnd' hrest

theorem dictGet_eq_none_of_not_mem {α : Type} (t : List (List Char × α)) (s : List Char)
    (h : s ∉ t.map Prod.fst) : dictGet t s = none := by
  induction t with
  | nil => rfl
  | cons p rest ih =>
    obtain ⟨k, w⟩ := p
    simp only [List.map_cons, List.mem_cons] at h
    push_neg at h
    obtain ⟨h1, h2⟩ := h
    have hks : ¬(k = s) := fun hk => h1 hk.symm
    simp only [dictGet, if_neg hks]
    exact ih h2

/-! ## Claims -/

/-- C1: `normalize_sentence` removes every occurrence of the three
punctuation characters, replaces every maximal whitespace run by a single
space and strips leading/trailing whitespace — it agrees everywhere with
`normalizeSpec`, the function defined by the specification's wording; in
particular `normalize("جب۔") = normalize("جب")`, the empty input yields the
empty string, and so does any input that becomes empty after punctuation
removal and stripping. -/
theorem C1_normalize_behavior :
    (∀ l : List Char, normalize_sentence l = normalizeSpec l)
    ∧ (∀ l : List Char, ∀ c ∈ normalize_sentence l, isStripPunct c = false)
    ∧ normalize_sentence "جب۔".data = normalize_sentence "جب".data
    ∧ normalize_sentence [] = []
    ∧ (∀ l : List Char, pyStrip (removePunct l) = [] → normalize_sentence l = []) := by
  refine ⟨?_, normalize_no_punct, by decide, rfl, ?_⟩
  · intro l
    rw [normalize_sentence_eq]
    unfold normalizeSpec
    exact collapse_pyStrip_comm (removePunct l)
  · intro l h
    rw [normalize_sentence_eq, h]
    rfl

/-- Witness for the conditional parts of C1: the output of the normalizer
on a concrete punctuated input contains no stripped punctuation character,
and a concrete input consisting only of punctuation and whitespace
normalizes to the empty string. -/
theorem C1_normalize_behavior_witness :
    isStripPunct ' ' = false ∧ normalize_sentence "۔ ؟".data = [] := by
  constructor
  · exact C1_normalize_behavior.2.1 "جب۔ جب".data ' ' (by decide)
  · exact C1_normalize_behavior.2.2.2.2 "۔ ؟".data (by decide)

/-- C2: the normalizer is idempotent — normalizing an already-normalized
string yields the same string. -/
theorem C2_normalize_idempotent (l : List Char) :
    normalize_sentence (normalize_sentence l) = normalize_sentence l := by
  rw [normalize_sentence_eq (normalize_sentence l), removePunct_normalize,
    normalize_sentence_eq l, collapse_pyStrip_comm (removePunct l), pyStrip_idem,
    collapse_pyStrip_comm (collapseWhite (removePunct l)), collapseWhite_idem]

/-- Evaluation rule for the scoring function on non-empty input whose
cleaned text is empty (whitespace-only input). -/
theorem predict_whitespace (text : List Char) (hne : text ≠ [])
    (h1 : collapseWhite (pyStrip text) = []) :
    predict_beauty_score text = ScoreResult.score (pyRound2 0) := by
  simp [predict_beauty_score, hne, h1]

/-- C3 counterexample: the claim says the scoring function returns the
fixed prompt for every input that is empty *or whitespace-only*, but the
code only guards `if not text:`; on the whitespace-only input `" "` it
falls through to scoring (the cleaned text is empty, the length guard sets
the vowel fraction to 0) and returns the message embedding the numeric
score 0 instead of the prompt. -/
theorem C3_counterexample :
    predict_beauty_score " ".data ≠ ScoreResult.prompt
    ∧ predict_beauty_score " ".data = ScoreResult.score 0 := by
  have h1 : predict_beauty_score " ".data = ScoreResult.score (pyRound2 0) :=
    predict_whitespace " ".data (by decide) (by decide)
  have h2 : pyRound2 0 = 0 := by norm_num [pyRound2, roundHalfEven]
  rw [h1, h2]
  exact ⟨by simp, rfl⟩

/-- C3 amended: the scoring function returns the fixed "please enter text"
prompt exactly when its input is the empty string; a whitespace-only
non-empty input is not rejected but scored (with score 0). -/
theorem C3_prompt_iff_empty (text : List Char) :
    predict_beauty_score text = ScoreResult.prompt ↔ text = [] := by
  by_cases h : text = []
  · subst h
    simp [predict_beauty_score]
  · simp [predict_beauty_score, h]

/-- C5: exact-match lookup. For every table whose keys are pairwise
distinct, looking up a stored key returns the stored row sequence exactly
(unchanged, in original order); looking up an absent key returns `none`
(the lookup is a total function, it never throws); and the home route
surfaces an absent key as a not-found message carrying the attempted
(normalized) sentence. -/
theorem C5_lookup_contract :
    (∀ (α : Type) (t : List (List Char × α)) (s : List Char) (v : α),
        (t.map Prod.fst).Nodup → (s, v) ∈ t → dictGet t s = some v)
    ∧ (∀ (α : Type) (t : List (List Char × α)) (s : List Char),
        s ∉ t.map Prod.fst → dictGet t s = none)
    ∧ (∀ raw : List Char,
        normalize_sentence (pyStrip raw) ≠ [] →
        normalize_sentence (pyStrip raw) ∉ MORPH_FEATURES.map Prod.fst →
        homeMewati raw =
          { rows := none,
            error := some (MewatiError.notFound (normalize_sentence (pyStrip raw))) }) := by
  refine ⟨fun α => dictGet_eq_some_of_mem, fun α => dictGet_eq_none_of_not_mem, ?_⟩
  intro raw hne hnot
  have hd := dictGet_eq_none_of_not_mem MORPH_FEATURES _ hnot
  simp [homeMewati, hne, hd]

/-- Witness for C5: a present key returns its stored value, lookup in an
empty table returns `none`, and a concrete absent input produces the
not-found view carrying the normalized sentence. -/
theorem C5_lookup_contract_witness :
    dictGet [("جب".data, 1)] "جب".data = some 1
    ∧ dictGet ([] : List (List Char × Nat)) "جب".data = none
    ∧ homeMewati "xyz".data =
        { rows := none,
          error := some (MewatiError.notFound (normalize_sentence (pyStrip "xyz".data))) } := by
  refine ⟨?_, ?_, ?_⟩
  · exact C5_lookup_contract.1 Nat [("جب".data, 1)] "جب".data 1 (by decide) (by decide)
  · exact C5_lookup_contract.2.1 Nat [] "جب".data (by decide)
  · exact C5_lookup_contract.2.2 "xyz".data (by decide) (by decide)

/-- C6: every key of the gloss table contains one of the punctuation
characters removed by normalization (a sentence-final stop or question
mark), while no morphology-table key contains one; hence the tables are
not interchangeable: no normalized input is ever a gloss-table key, and
the gloss lookup on normalized input always yields the not-found signal. -/
theorem C6_gloss_vs_morph_keys :
    (∀ k ∈ LEIPZIG_ENTRIES.map Prod.fst, ∃ c ∈ k, isStripPunct c = true)
    ∧ (∀ k ∈ MORPH_FEATURES.map Prod.fst, ∀ c ∈ k, isStripPunct c = false)
    ∧ (∀ x : List Char, normalize_sentence x ∉ LEIPZIG_ENTRIES.map Prod.fst)
    ∧ (∀ x : List Char, dictGet LEIPZIG_ENTRIES (normalize_sentence x) = none) := by
  have h1 : ∀ k ∈ LEIPZIG_ENTRIES.map Prod.fst, ∃ c ∈ k, isStripPunct c = true := by decide
  have h3 : ∀ x : List Char, normalize_sentence x ∉ LEIPZIG_ENTRIES.map Prod.fst := by
    intro x hmem
    obtain ⟨c, hc, hcp⟩ := h1 _ hmem
    rw [normalize_no_punct x c hc] at hcp
    cases hcp
  exact ⟨h1, by decide, h3, fun x => dictGet_eq_none_of_not_mem _ _ (h3 x)⟩

/-- Witness for C6 at concrete keys: the first gloss key contains a
stripped punctuation character, and a character of the first morphology
key is not stripped punctuation. -/
theorem C6_gloss_vs_morph_keys_witness :
    (∃ c ∈ "جب ہماری کلاس لگے کرے ای۔".data, isStripPunct c = true)
    ∧ isStripPunct 'ج' = false := by
  constructor
  · exact C6_gloss_vs_morph_keys.1 "جب ہماری کلاس لگے کرے ای۔".data (by decide)
  · exact C6_gloss_vs_morph_keys.2.1 "جب ہماری کلاس لگے کرے ای".data (by decide) 'ج' (by decide)

/-- C7: looking up the normalized sentence "جب ہماری کلاس لگے کرے ای" in
the morphology table returns exactly 4 rows, the first being
("جب", "جب", "Subordinating Conjunction (Temporal)", "—",
"Introduces time clauses."). -/
theorem C7_concrete_lookup :
    ∃ rs, dictGet MORPH_FEATURES "جب ہماری کلاس لگے کرے ای".data = some rs
      ∧ rs.length = 4
      ∧ rs.head? = some ("جب", "جب", "Subordinating Conjunction (Temporal)", "—",
          "Introduces time clauses.") := by
  refine ⟨[("جب", "جب", "Subordinating Conjunction (Temporal)", "—", "Introduces time clauses."),
    ("ہماری کلاس", "ہماری کلاس", "[ہم + اری] = Possessive Pronoun + Noun", "اری → ہماری",
      "Dialectal form of \x27ہماری\x27."),
    ("لگے", "لگتی", "[لگ + ے + کرے] = Root Verb + Aspect + Aux", "لگے کرے → لگتی",
      "Compound with habitual aspect."),
    ("کرے ای", "تھی", "Copula/Aspect Marker (3rd fem past)", "ای → تھی",
      "Reduced form of \x27تھی\x27.")], ?_, rfl, rfl⟩
  decide

/-- C8: GET /health returns HTTP status 200 with body "OK"; the handler is
a constant, independent of the static tables and any other state. -/
theorem C8_health_ok : health = ("OK", 200) := rfl

/-- C9: the fallback tree builder produces a two-level tree with root "TP",
a "DP" child holding the first token, and a "T'" child holding a
placeholder "T" node plus a "VP" child holding the remaining tokens (a
placeholder when only one token exists); an empty token sequence is first
replaced by a single placeholder token. -/
theorem C9_xbar_fallback_shape :
    (build_xbar_tree true [] = build_xbar_tree true ["—"])
    ∧ (∀ (t : String) (rest : List String),
        build_xbar_tree true (t :: rest) =
          XTree.node "TP"
            [XTree.node "DP" [XTree.leaf t],
             XTree.node "T\x27"
               [XTree.node "T" [XTree.leaf "…"],
                XTree.node "VP" (if rest = [] then [XTree.leaf "…"] else rest.map XTree.leaf)]]) := by
  constructor
  · rfl
  · intro t rest
    simp [build_xbar_tree]

/-- C10: every key of the morphology table and of the dependency-analysis
table is a fixed point of normalization, and consequently every entry of
these tables is retrievable by submitting its key verbatim. -/
theorem C10_keys_fixed_points :
    (∀ k ∈ MORPH_FEATURES.map Prod.fst, normalize_sentence k = k)
    ∧ (∀ k ∈ SPACY_FEATURES.map Prod.fst, normalize_sentence k = k)
    ∧ (∀ (k : List Char) (v : List MorphRow), (k, v) ∈ MORPH_FEATURES →
        dictGet MORPH_FEATURES (normalize_sentence k) = some v)
    ∧ (∀ (k : List Char) (v : List (List String)), (k, v) ∈ SPACY_FEATURES →
        dictGet SPACY_FEATURES (normalize_sentence k) = some v) := by
  have h1 : ∀ k ∈ MORPH_FEATURES.map Prod.fst, normalize_sentence k = k := by decide
  have h2 : ∀ k ∈ SPACY_FEATURES.map Prod.fst, normalize_sentence k = k := by decide
  have hnd1 : (MORPH_FEATURES.map Prod.fst).Nodup := by decide
  have hnd2 : (SPACY_FEATURES.map Prod.fst).Nodup := by decide
  refine ⟨h1, h2, ?_, ?_⟩
  · intro k v hmem
    rw [h1 k (List.mem_map.mpr ⟨(k, v), hmem, rfl⟩)]
    exact dictGet_eq_some_of_mem _ _ _ hnd1 hmem
  · intro k v hmem
    rw [h2 k (List.mem_map.mpr ⟨(k, v), hmem, rfl⟩)]
    exact dictGet_eq_some_of_mem _ _ _ hnd2 hmem

/-- Witness for C10 at the first morphology key: it is a fixed point of
normalization. -/
theorem C10_keys_fixed_points_witness :
    normalize_sentence "جب ہماری کلاس لگے کرے ای".data = "جب ہماری کلاس لگے کرے ای".data :=
  C10_keys_fixed_points.1 "جب ہماری کلاس لگے کرے ای".data (by decide)
